import Mathlib

/-!
Verification of the orrn-spool job scheduler and device session manager.

Shallow embedding of the Go sources:
* `internal/core/queue.go` — job queue: backoff, failure handling, enqueue,
  cancel/resume/retry, startup recovery, job processing.
* `internal/archive/archiver.go` (package core, printer manager section) —
  status-byte decoding, composite status derivation, `Print`.

Machine integers (`time.Duration`, `int`) are modelled as `Int` with explicit
two's-complement wraparound at 64 bits where overflow matters.  Timestamps are
abstract `Nat` ticks supplied as parameters.  Database rows are modelled as
records; each SQL statement is embedded as the record transformation it
performs.  Network and collaborator outcomes (poll replies, generator results,
transmission success) are explicit oracle parameters.
-/

namespace Spool

/-- Two's-complement interpretation of an integer at 64 bits, as Go computes
`int64` arithmetic (`time.Duration` is `int64` nanoseconds). -/
def toInt64 (x : Int) : Int :=
  (x + 2 ^ 63) % 2 ^ 64 - 2 ^ 63

/-- Go `1 << uint(n)` evaluated on a 64-bit `int`: the mathematical power of two
reduced to the signed 64-bit value. -/
def goShl1 (n : Nat) : Int :=
  toInt64 (2 ^ n)

/-- One second in nanoseconds (`time.Second`). -/
def second : Int := 1000000000

/-- One minute in nanoseconds (`time.Minute`). -/
def minute : Int := 60 * second

/-- Embeds `Queue.calculateBackoff` (queue.go:298-309).  `retryDelay` is the
configured `config.RetryDelay` in nanoseconds; `retryCount` is the retry
attempt (the Go caller passes a non-negative `int`, converted with `uint`).
`baseDelay * time.Duration(1<<uint(retryCount))` is 64-bit multiplication, so
both the shift and the product wrap. -/
def calculateBackoff (retryDelay : Int) (retryCount : Nat) : Int :=
  let baseDelay := if retryDelay = 0 then 10 * second else retryDelay
  let backoff := toInt64 (baseDelay * goShl1 retryCount)
  let maxBackoff := 5 * minute
  if backoff > maxBackoff then maxBackoff else backoff

/-- The base delay after applying the documented default: 10 seconds when the
configured value is zero. -/
def effectiveBaseDelay (retryDelay : Int) : Int :=
  if retryDelay = 0 then 10 * second else retryDelay

/-- The backoff formula exactly as the specification words it:
`min(base_delay * 2^n, 5 minutes)` with exact integer arithmetic. -/
def specBackoff (retryDelay : Int) (n : Nat) : Int :=
  min (effectiveBaseDelay retryDelay * 2 ^ n) (5 * minute)

/-! ### Device status decoding (archiver.go, printer-manager section) -/

/-- Embeds `printerStateMap` (archiver.go:641-650); keys are status byte #1
values (`'@'`=64, `'F'`=70, `'P'`=80, `'E'`=69, `'H'`=72, `'S'`=83, `'L'`=76,
`'I'`=73). -/
def printerStateMap (b : Nat) : Option String :=
  if b = 64 then some "normal"
  else if b = 70 then some "feeding"
  else if b = 80 then some "paused"
  else if b = 69 then some "error"
  else if b = 72 then some "head_open"
  else if b = 83 then some "standby"
  else if b = 76 then some "label_waiting"
  else if b = 73 then some "idle"
  else none

/-- Embeds `warningMap` (archiver.go:652-657); keys are status byte #2 values
(`'@'`=64, `'A'`=65, `'B'`=66, `'C'`=67). -/
def warningMap (b : Nat) : Option String :=
  if b = 64 then some "none"
  else if b = 65 then some "paper_low"
  else if b = 66 then some "ribbon_low"
  else if b = 67 then some "paper_and_ribbon_low"
  else none

/-- Embeds `errorMap` (archiver.go:659-667); keys are status byte #3 values
(`'@'`=64 … `'F'`=70). -/
def errorMap (b : Nat) : Option String :=
  if b = 64 then some "none"
  else if b = 65 then some "head_overheat"
  else if b = 66 then some "motor_overheat"
  else if b = 67 then some "head_and_motor_overheat"
  else if b = 68 then some "head_error"
  else if b = 69 then some "cutter_error"
  else if b = 70 then some "rtc_error"
  else none

/-- Embeds `mediaErrorMap` (archiver.go:669-676); keys are status byte #4
values (`'@'`=64, `'A'`=65, `'B'`=66, `'C'`=67, `'D'`=68, `` '`' ``=96). -/
def mediaErrorMap (b : Nat) : Option String :=
  if b = 64 then some "none"
  else if b = 65 then some "paper_empty"
  else if b = 66 then some "ribbon_empty"
  else if b = 67 then some "paper_and_ribbon_empty"
  else if b = 68 then some "takeup_reel_full"
  else if b = 96 then some "head_open"
  else none

/-- Embeds the `PrinterStatus` struct (archiver.go:575-584).  Raw bytes are
`Nat` values below 256; `LastChecked` is an abstract tick. -/
structure PrinterStatus where
  rawStatus : Nat × Nat × Nat × Nat
  printerState : String
  warning : String
  error : String
  mediaError : String
  isOnline : Bool
  canPrint : Bool
  lastChecked : Nat
deriving DecidableEq

/-- Embeds `parseStatus` (archiver.go:966-996): each byte is looked up in its
fixed table, unmapped values yield the classification "unknown".  As in Go the
struct's `IsOnline`/`CanPrint` fields are left at their zero value `false`. -/
def parseStatus (b0 b1 b2 b3 : Nat) : PrinterStatus :=
  { rawStatus := (b0, b1, b2, b3)
    printerState := (printerStateMap b0).getD "unknown"
    warning := (warningMap b1).getD "unknown"
    error := (errorMap b2).getD "unknown"
    mediaError := (mediaErrorMap b3).getD "unknown"
    isOnline := false
    canPrint := false
    lastChecked := 0 }

/-- The ready-state test of `CheckStatus` (archiver.go:958): `CanPrint` holds
for printer states normal, standby and idle. -/
def canPrintState (s : String) : Bool :=
  s = "normal" || s = "standby" || s = "idle"

/-- The successful 4-byte-read path of `CheckStatus` (archiver.go:955-958):
parse the response, then set `IsOnline := true`, the read timestamp and the
`CanPrint` flag. -/
def decodeStatus (now : Nat) (b0 b1 b2 b3 : Nat) : PrinterStatus :=
  let s := parseStatus b0 b1 b2 b3
  { s with isOnline := true, lastChecked := now,
           canPrint := canPrintState s.printerState }

/-- Embeds `determineStatusString` (archiver.go:998-1020). -/
def determineStatusString (s : PrinterStatus) : String :=
  if s.isOnline = false then "offline"
  else if s.printerState = "error" ∨ s.error ≠ "none" then "error"
  else if s.printerState = "paused" then "paused"
  else if s.mediaError ≠ "none" then "error"
  else if s.printerState = "feeding" then "busy"
  else "online"

/-- The composite-status derivation as the specification words it: fixed
precedence offline, then decoded error present (error classification not
"none" or printer-state "error"), then paused state, then media-error present,
then feeding state as "busy", else "online". -/
def compositeStatusSpec (s : PrinterStatus) : String :=
  if s.isOnline = false then "offline"
  else if s.error ≠ "none" ∨ s.printerState = "error" then "error"
  else if s.printerState = "paused" then "paused"
  else if s.mediaError ≠ "none" then "error"
  else if s.printerState = "feeding" then "busy"
  else "online"

/-! ### The job record and elementary store statements (queue.go) -/

/-- Embeds the `Job` struct (queue.go:24-40).  `status` is the string-typed
`JobStatus`; timestamps are abstract `Nat` ticks, the two optional ones are
`Option Nat` mirroring nullable columns. -/
structure Job where
  id : Int
  printerId : Int
  templateId : Int
  variablesJSON : String
  tsplContent : String
  status : String
  priority : Int
  retryCount : Int
  maxRetries : Int
  copies : Int
  errorMessage : String
  submittedBy : String
  createdAt : Nat
  startedAt : Option Nat
  completedAt : Option Nat
deriving DecidableEq

/-- Embeds `updateJobStatus` (queue.go:323-337): the UPDATE sets all four of
status, error_message, started_at and completed_at, writing NULL (`none`) for
absent timestamps. -/
def updateJobStatus (status errMsg : String) (startedAt completedAt : Option Nat)
    (j : Job) : Job :=
  { j with status := status, errorMessage := errMsg,
           startedAt := startedAt, completedAt := completedAt }

/-- Embeds `incrementRetryCount` (queue.go:319-321):
`UPDATE print_jobs SET retry_count = retry_count + 1`. -/
def incrementRetryCount (j : Job) : Job :=
  { j with retryCount := j.retryCount + 1 }

/-- A deferred retry callback registered with `time.AfterFunc`
(queue.go:283-285): the backoff delay and the job identifier it will retry. -/
structure RetryTimer where
  delay : Int
  jobId : Int
deriving DecidableEq

/-- Outcome of the failure handler: the updated job record, the scheduled
retry timer if any, and the webhook events emitted. -/
structure FailureResult where
  job : Job
  timer : Option RetryTimer
  events : List String
deriving DecidableEq

/-- Embeds `handleJobFailure` (queue.go:280-296).  With retries remaining it
schedules a deferred retry after `calculateBackoff(retryCount)` and increments
the persisted retry count (status untouched); with retries exhausted it marks
the job failed with the error message and a completion timestamp and emits the
"job_failed" event.  (`retryCount.toNat` mirrors Go's `uint` conversion for
the non-negative counts the store produces.) -/
def handleJobFailure (retryDelay : Int) (now : Nat) (j : Job) (errMsg : String) :
    FailureResult :=
  if j.retryCount < j.maxRetries then
    { job := incrementRetryCount j
      timer := some { delay := calculateBackoff retryDelay j.retryCount.toNat, jobId := j.id }
      events := [] }
  else
    { job := updateJobStatus "failed" errMsg none (some now) j
      timer := none
      events := ["job_failed"] }

/-- A non-blocking offer to the bounded dispatch channel (capacity 1000,
queue.go:100): append when there is room, silently drop otherwise. -/
def offerJob (ch : List Int) (id : Int) : List Int :=
  if ch.length < 1000 then ch ++ [id] else ch

/-- Embeds `retryJob` (queue.go:311-317), the deferred callback run when a
backoff timer fires: unconditionally reset the job to pending, clearing the
error message and both timestamps, then re-offer the identifier. -/
def retryJobCallback (ch : List Int) (j : Job) : Job × List Int :=
  (updateJobStatus "pending" "" none none j, offerJob ch j.id)

/-! ### Enqueue (queue.go:352-379) -/

/-- The queue-relevant fields of `config.QueueConfig` (config.go:38-42). -/
structure QueueConfig where
  maxRetries : Int
  retryDelay : Int
  workerCount : Int
deriving DecidableEq

/-- The row produced by the INSERT in `Enqueue` (queue.go:360-363): only
printer_id, template_id, variables_json, tspl_content, status, priority,
copies and submitted_by are supplied; the remaining columns take the schema
defaults of 001_initial.sql (retry_count 0, created_at now, timestamps NULL).
The table has no max_retries column, so the persisted record carries the Go
zero value 0 for it, and error_message NULL is read back as the empty
string. -/
def insertPrintJob (now : Nat) (newId : Int) (j : Job) : Job :=
  { id := newId, printerId := j.printerId, templateId := j.templateId,
    variablesJSON := j.variablesJSON, tsplContent := j.tsplContent,
    status := j.status, priority := j.priority, retryCount := 0,
    maxRetries := 0, copies := j.copies, errorMessage := "",
    submittedBy := j.submittedBy, createdAt := now,
    startedAt := none, completedAt := none }

/-- Result of `Enqueue`: the persisted row, the store-assigned identifier
returned to the caller, and the dispatch channel after the opportunistic
offer. -/
structure EnqueueResult where
  persisted : Job
  assignedId : Int
  channel : List Int
deriving DecidableEq

/-- Embeds `Enqueue` (queue.go:352-379): default max_retries from the config
when zero and status to pending when empty, insert the row, read back the
store-assigned identifier, and offer it to the dispatch channel without
blocking. -/
def enqueue (cfg : QueueConfig) (now : Nat) (newId : Int) (ch : List Int)
    (job : Job) : EnqueueResult :=
  let job := if job.maxRetries = 0 then { job with maxRetries := cfg.maxRetries } else job
  let job := if job.status = "" then { job with status := "pending" } else job
  { persisted := insertPrintJob now newId job
    assignedId := newId
    channel := offerJob ch newId }

/-! ### Cancel, resume, pause (queue.go:510-674) -/

/-- Embeds `CancelJob` (queue.go:510-528): the guarded UPDATE sets status
cancelled with a completion timestamp only when the current status is pending
or paused; zero affected rows surface as an error and the row is untouched. -/
def cancelJob (now : Nat) (j : Job) : Job × Option String :=
  if j.status = "pending" ∨ j.status = "paused" then
    ({ j with status := "cancelled", completedAt := some now }, none)
  else
    (j, some "job cannot be cancelled (not in pending/paused state)")

/-- Result of a job operation touching the dispatch channel: the (possibly
updated) row, the channel, and the error returned to the caller if any. -/
structure JobOpResult where
  job : Job
  channel : List Int
  err : Option String
deriving DecidableEq

/-- Embeds `ResumeJob` (queue.go:648-674): reject unless the job is paused;
reject when the job's printer is in the scheduler's paused-printer set;
otherwise reset the row to pending (clearing error and timestamps) and
re-offer the identifier. -/
def resumeJob (pausedPrinters : List Int) (ch : List Int) (j : Job) :
    JobOpResult :=
  if j.status ≠ "paused" then
    { job := j, channel := ch, err := some "only paused jobs can be resumed" }
  else if j.printerId ∈ pausedPrinters then
    { job := j, channel := ch, err := some "printer is paused, resume printer first" }
  else
    { job := updateJobStatus "pending" "" none none j
      channel := offerJob ch j.id
      err := none }

/-! ### Startup recovery (queue.go:105-167) -/

/-- The recovery UPDATE of `recoverJobs` (queue.go:140):
`UPDATE print_jobs SET status = 'pending' WHERE status = 'processing'`. -/
def resetProcessing (s : List Job) : List Job :=
  s.map fun j => if j.status = "processing" then { j with status := "pending" } else j

/-- The ORDER BY of the pending-job queries: priority DESC, created_at ASC. -/
def jobBefore (a b : Job) : Prop :=
  b.priority < a.priority ∨ (a.priority = b.priority ∧ a.createdAt ≤ b.createdAt)

instance (a b : Job) : Decidable (jobBefore a b) := by
  unfold jobBefore
  infer_instance

/-- Insertion step of the pending-job ordering. -/
def insertJob (a : Job) : List Job → List Job
  | [] => [a]
  | b :: rest => if jobBefore a b then a :: b :: rest else b :: insertJob a rest

/-- Sort by (priority DESC, created_at ASC), the order of the recovery and
dispatch queries. -/
def sortJobs : List Job → List Job
  | [] => []
  | a :: rest => insertJob a (sortJobs rest)

/-- The actions `Start` performs, in program order. -/
inductive StartEv where
  | reset
  | offer (id : Int)
  | spawnWorker (i : Nat)
  | spawnDispatcher
deriving DecidableEq

/-- Result of `Start`: the store after recovery, the dispatch channel after
the recovery offers, and the ordered action trace. -/
structure StartResult where
  store : List Job
  channel : List Int
  trace : List StartEv
deriving DecidableEq

/-- Embeds `Start` (queue.go:105-125) together with `recoverJobs`
(queue.go:139-167): first reset every processing job to pending and offer the
pending identifiers (ordered by priority DESC, created_at ASC) to the channel
non-blockingly, then spawn the worker goroutines, then the dispatcher.  The
trace records these actions in program order. -/
def startQueue (workers : Nat) (ch : List Int) (s : List Job) : StartResult :=
  let s2 := resetProcessing s
  let ids := (sortJobs (s2.filter fun j => j.status = "pending")).map Job.id
  { store := s2
    channel := ids.foldl offerJob ch
    trace := StartEv.reset :: (ids.map StartEv.offer
               ++ (List.range workers).map StartEv.spawnWorker
               ++ [StartEv.spawnDispatcher]) }

/-! ### The printer manager and Print (archiver.go:678-1145) -/

/-- Embeds the `Printer` struct (archiver.go:586-598).  The float-typed label
dimensions are not consulted by the verified operations and are omitted;
`LastSeenAt` bookkeeping is likewise side-channel only. -/
structure Printer where
  id : Int
  name : String
  ipAddress : String
  port : Int
  dpi : Int
  status : String
  totalPrints : Int
deriving DecidableEq

/-- Oracle for one status poll: the connection can fail, the 4-byte read can
come up short, or exactly four bytes arrive. -/
inductive PollResult where
  | connectFail
  | shortRead
  | okBytes (b0 b1 b2 b3 : Nat)
deriving DecidableEq

/-- The zero-value `PrinterStatus` Go builds on the failure paths of
`CheckStatus`, with only `LastChecked` set. -/
def failedPollStatus (now : Nat) : PrinterStatus :=
  { rawStatus := (0, 0, 0, 0), printerState := "", warning := "", error := "",
    mediaError := "", isOnline := false, canPrint := false, lastChecked := now }

/-- Result of `CheckStatus`: the decoded status value, the printer record
after `updatePrinterStatus`, and the error returned to the caller if any. -/
structure CheckResult where
  status : PrinterStatus
  printer : Printer
  err : Option String
deriving DecidableEq

/-- Embeds `CheckStatus` (archiver.go:871-964).  Connection or read failure
marks the printer offline and returns the error; a successful but incomplete
read marks it "error" and returns the invalid-status error; a full 4-byte
response is decoded, `CanPrint` derived, and the composite status string
written back by `updatePrinterStatus`. -/
def checkStatus (now : Nat) (poll : PollResult) (p : Printer) : CheckResult :=
  match poll with
  | .connectFail =>
      { status := failedPollStatus now
        printer := { p with status := "offline" }
        err := some "connection failed" }
  | .shortRead =>
      { status := failedPollStatus now
        printer := { p with status := "error" }
        err := some "invalid status response" }
  | .okBytes b0 b1 b2 b3 =>
      let st := decodeStatus now b0 b1 b2 b3
      { status := st
        printer := { p with status := determineStatusString st }
        err := none }

/-- The copy concatenation of `Print` (archiver.go:1124-1129): append
`"\r\n" ++ tspl` the given number of extra times. -/
def appendCopies (tspl : String) : Nat → String
  | 0 => tspl
  | n + 1 => appendCopies tspl n ++ "\r\n" ++ tspl

/-- `fullTSPL` as built by `Print`: the content repeated `copies` times,
separated by line breaks (unchanged when `copies ≤ 1`). -/
def fullTSPL (tspl : String) (copies : Int) : String :=
  if copies > 1 then appendCopies tspl (copies - 1).toNat else tspl

/-- Result of `Print`: the printer record after the operation, the payload
transmitted if any, and the error returned if any. -/
structure PrintResult where
  printer : Printer
  payload : Option String
  err : Option String
deriving DecidableEq

/-- Embeds `Print` (archiver.go:1110-1145): poll first and fail fast on a poll
error, an offline device or a not-ready device; otherwise transmit the
concatenated copies in one write (`sendOk` is the transmission oracle) and on
success add `copies` to the in-memory and persisted lifetime counter. -/
def printOp (now : Nat) (poll : PollResult) (sendOk : Bool) (p : Printer)
    (tspl : String) (copies : Int) : PrintResult :=
  let c := checkStatus now poll p
  match c.err with
  | some e => { printer := c.printer, payload := none, err := some e }
  | none =>
    if c.status.isOnline = false then
      { printer := c.printer, payload := none, err := some "printer is offline" }
    else if c.status.canPrint = false then
      { printer := c.printer, payload := none,
        err := some "printer cannot print in current state" }
    else if sendOk = false then
      { printer := c.printer, payload := none, err := some "connection failed" }
    else
      { printer := { c.printer with totalPrints := c.printer.totalPrints + copies }
        payload := some (fullTSPL tspl copies)
        err := none }

/-- Modelled from the spec: the concrete implementation of the scheduler's
`PrinterManagerInterface.IncrementPrintCount` is not under src/ — the
composition root wiring the queue to the device manager is absent and
archiver.go's `PrinterManager` declares no such method.  Per the spec the
worker "increment[s] the printer's lifetime counter", and the store statement
`IncrementPrinterPrints` (queries.go:40-42) adds the given count to
`total_prints`. -/
def incrementPrintCount (p : Printer) (count : Int) : Printer :=
  { p with totalPrints := p.totalPrints + count }

/-! ### processJob (queue.go:220-278) -/

/-- Result of one worker pass over a job: the job row, the printer record, the
daily per-printer counter, the `Print` invocations made (printer id, content,
copies), the webhook events emitted, and the retry timer scheduled if any. -/
structure ProcessResult where
  job : Job
  printer : Printer
  daily : Int
  printCalls : List (Int × String × Int)
  events : List String
  timer : Option RetryTimer
deriving DecidableEq

/-- Embeds `processJob` (queue.go:220-278) for a queue with a generator and a
printer manager configured.  `genResult` is the generator oracle consulted
only when the stored content is empty; `poll` and `sendOk` are the device
oracles inside `Print`; `now1`/`now2`/`nowFail` time the processing,
completion and failure updates.  Failures funnel into `handleJobFailure`,
which reads the retry counters that the in-flight status updates leave
untouched. -/
def processJob (cfg : QueueConfig) (pausedPrinters : List Int)
    (genResult : Except String String) (poll : PollResult) (sendOk : Bool)
    (now1 now2 nowFail : Nat) (j : Job) (p : Printer) (daily : Int) :
    ProcessResult :=
  if j.status ≠ "pending" then
    { job := j, printer := p, daily := daily, printCalls := [], events := [], timer := none }
  else if j.printerId ∈ pausedPrinters then
    { job := updateJobStatus "paused" "" none none j, printer := p,
      daily := daily, printCalls := [], events := [], timer := none }
  else
    match (if j.tsplContent = "" then genResult else Except.ok j.tsplContent) with
    | .error e =>
        let fr := handleJobFailure cfg.retryDelay nowFail j ("TSPL generation failed: " ++ e)
        { job := fr.job, printer := p, daily := daily, printCalls := [],
          events := fr.events, timer := fr.timer }
    | .ok content =>
        let j1 : Job := { j with tsplContent := content }
        let j2 := updateJobStatus "processing" "" (some now1) none j1
        let r := printOp now1 poll sendOk p j1.tsplContent j.copies
        match r.err with
        | some e =>
            let fr := handleJobFailure cfg.retryDelay nowFail j2 e
            { job := fr.job, printer := r.printer, daily := daily,
              printCalls := [(j.printerId, content, j.copies)],
              events := "job_started" :: fr.events, timer := fr.timer }
        | none =>
            let j3 := updateJobStatus "completed" "" none (some now2) j2
            let p2 := incrementPrintCount r.printer j.copies
            { job := j3, printer := p2, daily := daily + j.copies,
              printCalls := [(j.printerId, content, j.copies)],
              events := ["job_started", "job_completed"], timer := none }

/-! ### Concrete sample data for witnesses -/

/-- A concrete job row used by the closed witness statements. -/
def sampleJob (status : String) : Job :=
  { id := 1, printerId := 1, templateId := 1, variablesJSON := "",
    tsplContent := "DATA", status := status, priority := 0, retryCount := 0,
    maxRetries := 3, copies := 1, errorMessage := "", submittedBy := "ops",
    createdAt := 0, startedAt := none, completedAt := none }

/-- A concrete printer record used by the closed witness statements. -/
def samplePrinter : Printer :=
  { id := 1, name := "dock-a", ipAddress := "10.0.0.5", port := 9100,
    dpi := 203, status := "online", totalPrints := 10 }

/-- A concrete queue configuration used by the closed witness statements. -/
def sampleConfig : QueueConfig :=
  { maxRetries := 3, retryDelay := 0, workerCount := 2 }

/-- The claim C7 scenario evaluated: a pending job with two copies and stored
content, processed against an online ready printer (poll reply `@@@@`) with
the transmission succeeding. -/
def sampleProcess : ProcessResult :=
  processJob sampleConfig [] (Except.ok "GEN") (PollResult.okBytes 64 64 64 64) true
    1 2 3 { sampleJob "pending" with copies := 2 } samplePrinter 0

end Spool

namespace Spool

theorem toInt64_eq_self (x : Int) (h0 : 0 ≤ x) (h1 : x < 2 ^ 63) :
    toInt64 x = x := by
  unfold toInt64
  omega

theorem goShl1_eq_pow (n : Nat) (h : n < 63) : goShl1 n = 2 ^ n := by
  unfold goShl1
  apply toInt64_eq_self
  · positivity
  · exact pow_lt_pow_right₀ (by norm_num) h

theorem effectiveBaseDelay_pos (d : Int) (hd : 0 ≤ d) : 1 ≤ effectiveBaseDelay d := by
  unfold effectiveBaseDelay second
  split
  · norm_num
  · omega

theorem calculateBackoff_no_overflow (d : Int) (k : Nat) (hd : 0 ≤ d)
    (hov : effectiveBaseDelay d * 2 ^ k < 2 ^ 63) :
    calculateBackoff d k = specBackoff d k := by
  have hbase := effectiveBaseDelay_pos d hd
  have hpow : (0 : Int) < 2 ^ k := by positivity
  have hk : k < 63 := by
    by_contra hk
    push_neg at hk
    have h1 : (2 : Int) ^ 63 ≤ 2 ^ k := pow_le_pow_right₀ (by norm_num) hk
    have h2 : (2 : Int) ^ k ≤ effectiveBaseDelay d * 2 ^ k :=
      le_mul_of_one_le_left (le_of_lt hpow) hbase
    omega
  have hcb : calculateBackoff d k =
      (if toInt64 (effectiveBaseDelay d * goShl1 k) > 5 * minute then 5 * minute
       else toInt64 (effectiveBaseDelay d * goShl1 k)) := rfl
  rw [hcb, goShl1_eq_pow k hk,
      toInt64_eq_self _ (mul_nonneg (by omega) (le_of_lt hpow)) hov]
  unfold specBackoff
  rcases le_or_lt (effectiveBaseDelay d * 2 ^ k) (5 * minute) with h | h
  · rw [if_neg (not_lt.mpr h), min_eq_left h]
  · rw [if_pos h, min_eq_right (le_of_lt h)]

/-- C1 (counterexample): at the default base delay (retryDelay configured 0,
so 10 s) and retry attempt n = 30, the 64-bit product overflows: the computed
backoff is a negative duration rather than the claimed
`min(base_delay * 2^30, 5 minutes)`, and the delay strictly decreases from
attempt 29 to attempt 30, refuting monotonicity. -/
theorem calculateBackoff_overflow_counterexample :
    calculateBackoff 0 30 ≠ specBackoff 0 30 ∧
    calculateBackoff 0 30 < calculateBackoff 0 29 := by
  refine ⟨by decide, by decide⟩

/-- C1 (amended): for every retry attempt n whose exact backoff
`base_delay * 2^n` stays below the int64 overflow bound `2^63` nanoseconds
(with the 10 s default this covers n ≤ 29), the backoff computed by the
failure handler equals `min(base_delay * 2^n, 5 minutes)` — base delay
defaulting to 10 s when configured zero — and the delay is monotonically
non-decreasing over such attempts. -/
theorem calculateBackoff_eq_specBackoff (d : Int) (n : Nat) (hd : 0 ≤ d)
    (hov : effectiveBaseDelay d * 2 ^ n < 2 ^ 63) :
    calculateBackoff d n = specBackoff d n ∧
    ∀ m : Nat, m ≤ n → calculateBackoff d m ≤ calculateBackoff d n := by
  have hbase := effectiveBaseDelay_pos d hd
  refine ⟨calculateBackoff_no_overflow d n hd hov, ?_⟩
  intro m hm
  have hple : (2 : Int) ^ m ≤ 2 ^ n := pow_le_pow_right₀ (by norm_num) hm
  have hmul : effectiveBaseDelay d * 2 ^ m ≤ effectiveBaseDelay d * 2 ^ n :=
    mul_le_mul_of_nonneg_left hple (by omega)
  have hovm : effectiveBaseDelay d * 2 ^ m < 2 ^ 63 := lt_of_le_of_lt hmul hov
  rw [calculateBackoff_no_overflow d m hd hovm, calculateBackoff_no_overflow d n hd hov]
  unfold specBackoff
  exact min_le_min hmul le_rfl

/-- Witness for the amended C1 theorem at retryDelay 0 and attempt n = 3. -/
theorem calculateBackoff_eq_specBackoff_witness :
    ((0 : Int) ≤ 0 ∧ effectiveBaseDelay 0 * 2 ^ 3 < 2 ^ 63) ∧
    calculateBackoff 0 3 = specBackoff 0 3 ∧
    calculateBackoff 0 2 ≤ calculateBackoff 0 3 :=
  ⟨⟨le_refl 0, by decide⟩,
   (calculateBackoff_eq_specBackoff 0 3 (le_refl 0) (by decide)).1,
   (calculateBackoff_eq_specBackoff 0 3 (le_refl 0) (by decide)).2 2 (by decide)⟩

/-- C5: for every decoded device status, the composite status string computed
by the code is exactly the spec's fixed-precedence derivation: offline, then
decoded error present (error classification not "none" or printer-state
"error"), then paused, then media-error present, then feeding as "busy", else
"online". -/
theorem determineStatusString_eq_spec (s : PrinterStatus) :
    determineStatusString s = compositeStatusSpec s := by
  unfold determineStatusString compositeStatusSpec
  by_cases h1 : s.isOnline = false <;>
    by_cases h2 : s.printerState = "error" <;>
      by_cases h3 : s.error = "none" <;>
        simp [h1, h2, h3]

/-- C4 (counterexample): the response `P @ A @` (first byte 'P', error byte
'A' = head_overheat) decodes to printer-state "paused", yet the composite
status is "error", not "paused" — the error byte takes precedence, so the
composite is not "paused" for all values of bytes 2-4. -/
theorem pausedState_composite_counterexample :
    (decodeStatus 0 80 64 65 64).printerState = "paused" ∧
    determineStatusString (decodeStatus 0 80 64 65 64) = "error" ∧
    determineStatusString (decodeStatus 0 80 64 65 64) ≠ "paused" := by
  refine ⟨by decide, by decide, by decide⟩

/-- C4 (amended): a 4-byte response whose first byte is 'P' always decodes to
printer-state "paused", whatever the remaining three bytes; the derived
composite status is "paused" for all values of the warning and media-error
bytes provided the error byte decodes to classification "none" (byte '@') —
a decoded error takes precedence over the paused state otherwise. -/
theorem pausedState_composite_amended (now b1 b2 b3 : Nat) :
    (decodeStatus now 80 b1 b2 b3).printerState = "paused" ∧
    determineStatusString (decodeStatus now 80 b1 64 b3) = "paused" := by
  constructor
  · rfl
  · simp [decodeStatus, parseStatus, determineStatusString, printerStateMap, errorMap]

/-- C2: the failure handler increments the persisted retry count exactly when
`retry_count < max_retries` (leaving the status alone and keeping
`retry_count ≤ max_retries`); once the count has reached the limit it leaves
the count unchanged, sets the status to exactly "failed" with the error
message and a completion timestamp, and schedules no retry timer — so
`retry_count ≤ max_retries` keeps holding whenever the resulting status is
not "failed". -/
theorem handleJobFailure_retry_invariant (rd : Int) (now : Nat) (j : Job)
    (errMsg : String) :
    (j.retryCount < j.maxRetries →
      (handleJobFailure rd now j errMsg).job.retryCount = j.retryCount + 1 ∧
      (handleJobFailure rd now j errMsg).job.status = j.status ∧
      (handleJobFailure rd now j errMsg).job.retryCount ≤
        (handleJobFailure rd now j errMsg).job.maxRetries) ∧
    (j.maxRetries ≤ j.retryCount →
      (handleJobFailure rd now j errMsg).job.retryCount = j.retryCount ∧
      (handleJobFailure rd now j errMsg).job.status = "failed" ∧
      (handleJobFailure rd now j errMsg).job.errorMessage = errMsg ∧
      (handleJobFailure rd now j errMsg).job.completedAt = some now ∧
      (handleJobFailure rd now j errMsg).timer = none) ∧
    ((handleJobFailure rd now j errMsg).job.status ≠ "failed" →
      (handleJobFailure rd now j errMsg).job.retryCount ≤
        (handleJobFailure rd now j errMsg).job.maxRetries) := by
  unfold handleJobFailure
  by_cases h : j.retryCount < j.maxRetries <;>
    simp [h, incrementRetryCount, updateJobStatus] <;> omega

/-- Witness for C2 at a job with retries remaining. -/
theorem handleJobFailure_retry_invariant_witness :
    (sampleJob "processing").retryCount < (sampleJob "processing").maxRetries ∧
    (handleJobFailure 0 9 (sampleJob "processing") "boom").job.retryCount =
      (sampleJob "processing").retryCount + 1 :=
  ⟨by decide,
   ((handleJobFailure_retry_invariant 0 9 (sampleJob "processing") "boom").1
      (by decide)).1⟩

/-- C3 (counterexample): Enqueue performs no copy-count defaulting — a job
submitted with copies = 0 is persisted with copies = 0, so not every record
Enqueue persists has a copy count of at least 1. -/
theorem enqueue_zero_copies_counterexample :
    (enqueue sampleConfig 0 1 [] { sampleJob "" with copies := 0 }).persisted.copies = 0 ∧
    ¬(1 ≤ (enqueue sampleConfig 0 1 [] { sampleJob "" with copies := 0 }).persisted.copies) := by
  refine ⟨rfl, by decide⟩

/-- C3 (amended): Enqueue persists the copy count exactly as given — zero
included; defaulting the copy count to 1 happens in the API handlers before
Enqueue is called — while defaulting max_retries from the configuration when
zero and the status to pending when empty, and it returns the store-assigned
identifier. -/
theorem enqueue_behavior (cfg : QueueConfig) (now : Nat) (newId : Int)
    (ch : List Int) (job : Job) :
    (enqueue cfg now newId ch job).assignedId = newId ∧
    (enqueue cfg now newId ch job).persisted.id = newId ∧
    (enqueue cfg now newId ch job).persisted.copies = job.copies ∧
    (job.status = "" ∨ job.status = "pending" →
      (enqueue cfg now newId ch job).persisted.status = "pending") := by
  unfold enqueue insertPrintJob
  by_cases h0 : job.maxRetries = 0 <;> by_cases h1 : job.status = "" <;>
    simp [h0, h1] <;> tauto

/-- Witness for the amended C3 theorem on a job submitted with empty status. -/
theorem enqueue_behavior_witness :
    (enqueue sampleConfig 0 5 [] (sampleJob "")).assignedId = 5 ∧
    ((sampleJob "").status = "" ∨ (sampleJob "").status = "pending") ∧
    (enqueue sampleConfig 0 5 [] (sampleJob "")).persisted.status = "pending" :=
  ⟨(enqueue_behavior sampleConfig 0 5 [] (sampleJob "")).1,
   Or.inl rfl,
   (enqueue_behavior sampleConfig 0 5 [] (sampleJob "")).2.2.2 (Or.inl rfl)⟩

/-- C6: CancelJob succeeds exactly when the job is pending or paused, in
which case the row becomes cancelled with a completion timestamp and no other
field changes; in every other status an error is returned and the row is left
entirely unchanged. -/
theorem cancelJob_spec (now : Nat) (j : Job) :
    ((cancelJob now j).2 = none ↔ j.status = "pending" ∨ j.status = "paused") ∧
    (j.status = "pending" ∨ j.status = "paused" →
      (cancelJob now j).1 = { j with status := "cancelled", completedAt := some now }) ∧
    (j.status ≠ "pending" → j.status ≠ "paused" →
      (cancelJob now j).2.isSome = true ∧ (cancelJob now j).1 = j) := by
  unfold cancelJob
  by_cases h : j.status = "pending" ∨ j.status = "paused" <;> simp [h] <;> tauto

/-- Witness for C6: a pending job cancels with the timestamp; a processing
job is rejected with the row untouched. -/
theorem cancelJob_spec_witness :
    ((sampleJob "pending").status = "pending" ∨ (sampleJob "pending").status = "paused") ∧
    (cancelJob 7 (sampleJob "pending")).1 =
      { sampleJob "pending" with status := "cancelled", completedAt := some 7 } ∧
    ((sampleJob "processing").status ≠ "pending" ∧
      (sampleJob "processing").status ≠ "paused" ∧
      (cancelJob 7 (sampleJob "processing")).1 = sampleJob "processing") :=
  ⟨Or.inl rfl,
   (cancelJob_spec 7 (sampleJob "pending")).2.1 (Or.inl rfl),
   ⟨by decide, by decide,
    ((cancelJob_spec 7 (sampleJob "processing")).2.2 (by decide) (by decide)).2⟩⟩

/-- C9: ResumeJob succeeds exactly when the job is paused and its printer is
not in the scheduler's paused-printer set, and then resets the row to pending;
when the job is not paused, or its printer is paused, it returns an error and
leaves both the row and the dispatch channel untouched. -/
theorem resumeJob_spec (pp ch : List Int) (j : Job) :
    ((resumeJob pp ch j).err = none ↔ j.status = "paused" ∧ j.printerId ∉ pp) ∧
    (j.status = "paused" → j.printerId ∉ pp →
      (resumeJob pp ch j).job = updateJobStatus "pending" "" none none j ∧
      (resumeJob pp ch j).job.status = "pending") ∧
    (j.status ≠ "paused" ∨ j.printerId ∈ pp →
      (resumeJob pp ch j).err.isSome = true ∧
      (resumeJob pp ch j).job = j ∧ (resumeJob pp ch j).channel = ch) := by
  unfold resumeJob
  by_cases h1 : j.status = "paused" <;> by_cases h2 : j.printerId ∈ pp <;>
    simp [h1, h2, updateJobStatus] <;> tauto

/-- Witness for C9: a paused job on an unpaused printer resumes to pending; a
paused job on a paused printer is rejected with the row untouched. -/
theorem resumeJob_spec_witness :
    ((sampleJob "paused").status = "paused" ∧
      (sampleJob "paused").printerId ∉ ([] : List Int) ∧
      (resumeJob [] [] (sampleJob "paused")).job.status = "pending") ∧
    (((sampleJob "paused").status ≠ "paused" ∨
        (sampleJob "paused").printerId ∈ [(1 : Int)]) ∧
      (resumeJob [1] [] (sampleJob "paused")).job = sampleJob "paused") :=
  ⟨⟨rfl, by decide,
    ((resumeJob_spec [] [] (sampleJob "paused")).2.1 rfl (by decide)).2⟩,
   ⟨Or.inr (by decide),
    ((resumeJob_spec [1] [] (sampleJob "paused")).2.2 (Or.inr (by decide))).2.1⟩⟩

/-- C10: the deferred retry callback resets the row to pending and clears the
error message, started_at and completed_at unconditionally — it never
re-checks the status, so even a row that has meanwhile become cancelled is
returned to pending. -/
theorem retryJob_unconditional_reset (ch : List Int) (j : Job) :
    ((retryJobCallback ch j).1.status = "pending" ∧
     (retryJobCallback ch j).1.errorMessage = "" ∧
     (retryJobCallback ch j).1.startedAt = none ∧
     (retryJobCallback ch j).1.completedAt = none) ∧
    (retryJobCallback ch { j with status := "cancelled" }).1.status = "pending" :=
  ⟨⟨rfl, rfl, rfl, rfl⟩, rfl⟩

/-- C8: on startup every persisted processing job is reset to pending by the
recovery step (no job in the recovered store remains processing), and in the
Start action trace the reset strictly precedes every other action — worker
spawns, the dispatcher spawn and every channel offer — so no dispatch of new
work happens before the reset. -/
theorem startQueue_recovery_before_dispatch (w : Nat) (ch : List Int) (s : List Job) :
    (∀ j ∈ s, j.status = "processing" →
      { j with status := "pending" } ∈ (startQueue w ch s).store) ∧
    (∀ j ∈ (startQueue w ch s).store, j.status ≠ "processing") ∧
    ((startQueue w ch s).trace.head? = some StartEv.reset) ∧
    (∀ i : Nat, ∀ e : StartEv, (startQueue w ch s).trace.get? i = some e →
      e ≠ StartEv.reset →
      ∃ k : Nat, k < i ∧ (startQueue w ch s).trace.get? k = some StartEv.reset) := by
  refine ⟨?_, ?_, rfl, ?_⟩
  · intro j hj hproc
    have hf : (fun j : Job =>
        if j.status = "processing" then { j with status := "pending" } else j) j
        = { j with status := "pending" } := by simp [hproc]
    exact hf ▸ List.mem_map_of_mem _ hj
  · intro j hj
    rcases List.mem_map.mp hj with ⟨a, _, rfl⟩
    by_cases h : a.status = "processing" <;> simp [h]
  · intro i e hi hne
    match i with
    | 0 =>
        have : e = StartEv.reset := by
          have h0 : (startQueue w ch s).trace.get? 0 = some StartEv.reset := rfl
          rw [h0] at hi
          exact (Option.some.injEq _ _ ▸ hi).symm
        exact absurd this hne
    | Nat.succ n => exact ⟨0, Nat.succ_pos n, rfl⟩

/-- Witness for C8 at a one-job store holding a processing job and one
worker. -/
theorem startQueue_recovery_before_dispatch_witness :
    (sampleJob "processing" ∈ [sampleJob "processing"] ∧
      (sampleJob "processing").status = "processing" ∧
      { sampleJob "processing" with status := "pending" } ∈
        (startQueue 1 [] [sampleJob "processing"]).store) ∧
    ((startQueue 1 [] [sampleJob "processing"]).trace.get? 2 =
        some (StartEv.spawnWorker 0) ∧
      ∃ k : Nat, k < 2 ∧
        (startQueue 1 [] [sampleJob "processing"]).trace.get? k = some StartEv.reset) :=
  ⟨⟨by decide, rfl,
    (startQueue_recovery_before_dispatch 1 [] [sampleJob "processing"]).1
      (sampleJob "processing") (by decide) rfl⟩,
   ⟨by decide,
    (startQueue_recovery_before_dispatch 1 [] [sampleJob "processing"]).2.2.2 2
      (StartEv.spawnWorker 0) (by decide) (by decide)⟩⟩

/-- C7: evaluating the worker's success path at the claim's scenario — a
pending job with copies = 2 and stored content, printer online and ready
(poll bytes `@@@@`), transmission succeeding — the job completes and the
Device Session Manager's Print operation is invoked exactly once with
copies = 2, but the printer's lifetime print counter increases by 4, not by
the claimed 2: Print itself adds the copy count and the worker then calls
IncrementPrintCount with the copy count again. -/
theorem processJob_double_increment :
    sampleProcess.job.status = "completed" ∧
    sampleProcess.printCalls = [(1, "DATA", 2)] ∧
    sampleProcess.events = ["job_started", "job_completed"] ∧
    sampleProcess.printer.totalPrints = samplePrinter.totalPrints + 4 ∧
    sampleProcess.printer.totalPrints ≠ samplePrinter.totalPrints + 2 ∧
    sampleProcess.daily = 2 := by
  refine ⟨by decide, by decide, by decide, by decide, by decide, by decide⟩

end Spool
